import Mathlib

/-!
Verification of the request/response/subscription multiplexing protocol of
`trpc-chrome`: the caller-side link (`src/link/index.ts`) and the callee-side
dispatcher (`src/adapter/index.ts`).

JavaScript values that travel on the wire (inputs, outputs, error shapes,
contexts) are modelled by a type parameter `V`; machinery that can throw is
modelled with `Except V`, the thrown cause being itself a value.
-/

namespace TrpcChrome

/-- A correlation id: `number | string` in the TypeScript sources. -/
inductive RpcId
  | num (n : Int)
  | str (s : String)
  deriving DecidableEq, Repr

/-- `result.type` of a response frame: `'data' | 'started' | 'stopped'`. -/
inductive ResultType
  | data
  | started
  | stopped
  deriving DecidableEq, Repr

/-- The `method` field of a request frame. -/
inductive Method
  | query
  | mutation
  | subscription
  | subscriptionStop
  deriving DecidableEq, Repr

/-- The body of a response frame: `{ result }` or `{ error }`, mutually
exclusive.  `result.type` may be absent (`none`), and `result.data` may be
absent. -/
inductive ResBody (V : Type)
  | result (type : Option ResultType) (data : Option V)
  | error (e : V)
  deriving DecidableEq, Repr

/-- The `trpc` part of a response frame as the client-side listener sees it:
`idField = none` models a frame with no `id` key, `some none` a frame whose
`id` is `null`/`undefined`, and `some (some i)` an ordinary id. -/
structure ResFrame (V : Type) where
  idField : Option (Option RpcId)
  body : ResBody V
  deriving DecidableEq, Repr

/-- An arbitrary message arriving on the channel: lacking a `trpc` key,
carrying a null/undefined `trpc` value, or carrying a response frame. -/
inductive Message (V : Type)
  | noTrpc
  | nullTrpc
  | frame (t : ResFrame V)
  deriving DecidableEq, Repr

/-- `CombinedDataTransformer`: `input`/`output` each with
`serialize`/`deserialize`. -/
structure CombinedDataTransformer (V : Type) where
  inputSerialize : V → V
  inputDeserialize : V → V
  outputSerialize : V → V
  outputDeserialize : V → V

/-- The op descriptor of a call: `const { id, type, path } = op`. -/
structure OpDesc (V : Type) where
  id : RpcId
  type : Method
  path : String
  input : Option V
  deriving DecidableEq, Repr

/-- The structured error the client raises on its observer. -/
inductive ClientErr (V : Type)
  | disconnected
  | wire (e : V)
  deriving DecidableEq, Repr

/-- The `result` object the client's `observer.next` delivers, after the
spread `{...trpc.result, ...}`. -/
structure DeliveredResult (V : Type) where
  type : Option ResultType
  data : Option V
  deriving DecidableEq, Repr

/-- An event on a caller-side observer. -/
inductive ObsEvent (V : Type)
  | next (r : DeliveredResult V)
  | error (e : ClientErr V)
  | complete
  deriving DecidableEq, Repr

/-- Output deserialization of the link: `transformer.output.deserialize` when
a transformer is configured, pass-through otherwise.  Absent (`undefined`)
payloads pass through. -/
def linkDeser {V : Type} (tr : Option (CombinedDataTransformer V)) (d : Option V) :
    Option V :=
  match tr with
  | some t => d.map t.outputDeserialize
  | none => d

/-- The `onMessage` listener one call of `chromeLink` attaches
(`src/link/index.ts:34-62`), as the list of observer events it produces on
one incoming message.  It returns early (`[]`) on messages lacking a `trpc`
key, with a null `trpc`, with a missing or null/undefined `trpc.id`, or whose
id differs from the call's own `op.id`.  On an error frame it raises the
(deserialized) error.  On a result frame it rewrites the result to a
deserialized `data` result when `result.type` is absent or `'data'`, delivers
it, and completes unless the call is a subscription awaiting a frame other
than `'stopped'`. -/
def linkOnMessage {V : Type} (tr : Option (CombinedDataTransformer V))
    (opId : RpcId) (opType : Method) (msg : Message V) : List (ObsEvent V) :=
  match msg with
  | .noTrpc => []
  | .nullTrpc => []
  | .frame t =>
    match t.idField with
    | none => []
    | some none => []
    | some (some mid) =>
      if opId ≠ mid then []
      else
        match t.body with
        | .error e =>
          [.error (.wire (match tr with
            | some tf => tf.outputDeserialize e
            | none => e))]
        | .result rty rdata =>
          let delivered : DeliveredResult V :=
            if rty = none ∨ rty = some .data then
              ⟨some .data, linkDeser tr rdata⟩
            else
              ⟨rty, rdata⟩
          .next delivered ::
            (if opType ≠ .subscription ∨ rty = some .stopped then
              [ObsEvent.complete]
            else [])

/-- The effective correlation id a message carries, `none` when the client
listener's shape checks reject it. -/
def msgId {V : Type} (msg : Message V) : Option RpcId :=
  match msg with
  | .noTrpc => none
  | .nullTrpc => none
  | .frame t =>
    match t.idField with
    | none => none
    | some none => none
    | some (some mid) => some mid

/-- The caller-side multiplexer state on one channel: the calls whose
listeners are currently attached. -/
structure LinkState (V : Type) where
  pending : List (OpDesc V)
  deriving DecidableEq, Repr

/-- An observer event terminates its call: `observer.error` and
`observer.complete` both run the observable teardown, which detaches the
call's listeners. -/
def terminalEvent {V : Type} : ObsEvent V → Bool
  | .next _ => false
  | .error _ => true
  | .complete => true

/-- Dispatch one incoming message to every attached per-call listener: each
pending call's `onMessage` runs on the message; calls whose observer saw a
terminal event detach.  Returns the new state and the `(call id, event)`
pairs produced. -/
def deliverFrame {V : Type} (tr : Option (CombinedDataTransformer V))
    (s : LinkState V) (msg : Message V) :
    LinkState V × List (RpcId × ObsEvent V) :=
  (⟨s.pending.filter
      (fun c => ¬ (linkOnMessage tr c.id c.type msg).any terminalEvent)⟩,
   s.pending.flatMap
      (fun c => (linkOnMessage tr c.id c.type msg).map (fun e => (c.id, e))))

/-- Firing the channel's `onDisconnect` event: every pending call's
`onDisconnect` listener raises `TRPCClientError('Port disconnected
prematurely')` on its observer, whose teardown detaches the call's
listeners. -/
def fireDisconnect {V : Type} (s : LinkState V) :
    LinkState V × List (RpcId × ObsEvent V) :=
  (⟨[]⟩, s.pending.map (fun c => (c.id, ObsEvent.error .disconnected)))

/-! ## Callee-side dispatcher (`src/adapter/index.ts`, `createChromeHandler`) -/

/-- The request parameters: `params: { path, input }`; `input` may be
absent (`undefined`). -/
structure ReqParams (V : Type) where
  path : String
  input : Option V
  deriving DecidableEq, Repr

/-- A message arriving at the dispatcher's `onMessage`: lacking the `trpc`
key, carrying a missing/null/undefined `trpc.id`, or a request frame
`{ id, method, params? }`. -/
inductive ServerMsg (V : Type)
  | noTrpc
  | badId
  | req (id : RpcId) (method : Method) (params : Option (ReqParams V))
  deriving DecidableEq, Repr

/-- A response frame sent by `sendResponse`: `{ trpc: { id, ...body } }`. -/
structure Resp (V : Type) where
  id : RpcId
  body : ResBody V
  deriving DecidableEq, Repr

/-- What the dispatcher hands its `onError` collaborator:
`{ error, type, path, input }` (the channel handle and context are elided). -/
structure ErrReport (V : Type) where
  error : V
  method : Method
  path : Option String
  input : Option V
  deriving DecidableEq, Repr

/-- One event of a stream a procedure resolves to: the observable's
synchronous emissions to its subscriber. -/
inductive StreamEvent (V : Type)
  | next (d : V)
  | error (e : V)
  | complete
  deriving DecidableEq, Repr

/-- The outcome of a procedure call at the execution collaborator: a plain
value, or an observable stream (`isObservable(result)`), carrying the events
it emits synchronously upon `subscribe`. -/
inductive ProcResult (V : Type)
  | value (v : V)
  | stream (events : List (StreamEvent V))
  deriving DecidableEq, Repr

/-- The dispatcher's collaborators: the router's transformer (always present,
identity by default), context factory, procedure resolution + execution
(both can throw, the thrown cause being a value), the `getErrorFromUnknown`
normalizer, the `getErrorShape` wire-shape builder, and the `TRPCError`
values the dispatcher itself throws. -/
structure ServerCfg (V : Type) where
  inputDeserialize : V → Except V V
  outputSerialize : V → V
  createContext : Except V V
  run : V → String → Option V → Except V (ProcResult V)
  normalize : V → V
  shape : V → V
  missingParamsError : V
  dupIdError : RpcId → V

/-- The per-channel dispatcher state: the active-subscription registry
(`subscriptions: Map<id, Unsubscribable>`, modelled as an association list
keyed by id over subscription tokens), the next fresh subscription token, the
tokens whose `unsubscribe()` has been invoked, and the cleanup list
(`listeners`) of tokens to unsubscribe on channel disconnect. -/
structure HandlerState where
  subs : List (RpcId × Nat)
  nextToken : Nat
  unsubbed : List Nat
  cleanup : List Nat
  deriving DecidableEq, Repr

/-- `subscriptions.get(id)`. -/
def subsGet (st : List (RpcId × Nat)) (i : RpcId) : Option Nat :=
  (st.find? (fun p => p.1 = i)).map Prod.snd

/-- `subscriptions.delete(id)`. -/
def subsDelete (st : List (RpcId × Nat)) (i : RpcId) : List (RpcId × Nat) :=
  st.filter (fun p => p.1 ≠ i)

/-- `subscriptions.set(id, subscription)`. -/
def subsSet (st : List (RpcId × Nat)) (i : RpcId) (tok : Nat) :
    List (RpcId × Nat) :=
  subsDelete st i ++ [(i, tok)]

/-- `input = params.input !== undefined ? transformer.input.deserialize(params.input) : undefined`. -/
def deserInput {V : Type} (cfg : ServerCfg V) (i : Option V) :
    Except V (Option V) :=
  match i with
  | some v => (cfg.inputDeserialize v).map some
  | none => .ok none

/-- The frames and error reports the subscriber callbacks emit for the
events an observable delivers synchronously at `subscribe` time: `next` data
is serialized and sent as a `data` frame; `error` is normalized, reported to
`onError`, and sent shaped as an `error` frame; `complete` sends a `stopped`
frame.  The observable contract stops emission at the first terminal
event. -/
def streamSyncFrames {V : Type} (cfg : ServerCfg V) (id : RpcId)
    (method : Method) (path : String) (input : Option V) :
    List (StreamEvent V) → List (Resp V) × List (ErrReport V)
  | [] => ([], [])
  | .next d :: rest =>
    (⟨id, .result (some .data) (some (cfg.outputSerialize d))⟩ ::
        (streamSyncFrames cfg id method path input rest).1,
     (streamSyncFrames cfg id method path input rest).2)
  | .error e :: _ =>
    ([⟨id, .error (cfg.shape (cfg.normalize e))⟩],
     [⟨cfg.normalize e, method, some path, input⟩])
  | .complete :: _ => ([⟨id, .result (some .stopped) none⟩], [])

/-- The first cause thrown inside the dispatcher's `try` block for a call
request, `none` when every stage succeeds: missing `params`, input
deserialization, context creation, and path resolution / procedure
execution, in the order the code runs them. -/
def callFailure {V : Type} (cfg : ServerCfg V) (params : Option (ReqParams V)) :
    Option V :=
  match params with
  | none => some cfg.missingParamsError
  | some p =>
    match deserInput cfg p.input with
    | .error c => some c
    | .ok input =>
      match cfg.createContext with
      | .error c => some c
      | .ok ctx =>
        match cfg.run ctx p.path input with
        | .error c => some c
        | .ok _ => none

/-- The dispatcher's per-channel `onMessage` handler
(`src/adapter/index.ts`): processes one incoming message against the
per-channel state and returns the new state, the response frames sent (in
order), and the `onError` reports made (in order). -/
def serverOnMessage {V : Type} (cfg : ServerCfg V) (st : HandlerState)
    (msg : ServerMsg V) :
    HandlerState × List (Resp V) × List (ErrReport V) :=
  match msg with
  | .noTrpc => (st, [], [])
  | .badId => (st, [], [])
  | .req id method params =>
    if method = .subscriptionStop then
      match subsGet st.subs id with
      | some tok =>
        ({ st with
            subs := subsDelete st.subs id
            unsubbed := tok :: st.unsubbed },
         [⟨id, .result (some .stopped) none⟩], [])
      | none => ({ st with subs := subsDelete st.subs id }, [], [])
    else
      match params with
      | none =>
        (st,
         [⟨id, .error (cfg.shape (cfg.normalize cfg.missingParamsError))⟩],
         [⟨cfg.normalize cfg.missingParamsError, method, none, none⟩])
      | some p =>
        match deserInput cfg p.input with
        | .error c =>
          (st, [⟨id, .error (cfg.shape (cfg.normalize c))⟩],
           [⟨cfg.normalize c, method, some p.path, none⟩])
        | .ok input =>
          match cfg.createContext with
          | .error c =>
            (st, [⟨id, .error (cfg.shape (cfg.normalize c))⟩],
             [⟨cfg.normalize c, method, some p.path, input⟩])
          | .ok ctx =>
            match cfg.run ctx p.path input with
            | .error c =>
              (st, [⟨id, .error (cfg.shape (cfg.normalize c))⟩],
               [⟨cfg.normalize c, method, some p.path, input⟩])
            | .ok (.value v) =>
              (st, [⟨id, .result (some .data) (some (cfg.outputSerialize v))⟩],
               [])
            | .ok (.stream events) =>
              if (subsGet st.subs id).isSome then
                ({ st with
                    nextToken := st.nextToken + 1
                    unsubbed := st.nextToken :: st.unsubbed },
                 (streamSyncFrames cfg id method p.path input events).1
                   ++ [⟨id, .result (some .stopped) none⟩,
                       ⟨id, .error (cfg.shape (cfg.normalize (cfg.dupIdError id)))⟩],
                 (streamSyncFrames cfg id method p.path input events).2
                   ++ [⟨cfg.normalize (cfg.dupIdError id), method, some p.path, input⟩])
              else
                ({ st with
                    nextToken := st.nextToken + 1
                    subs := subsSet st.subs id st.nextToken
                    cleanup := st.nextToken :: st.cleanup },
                 (streamSyncFrames cfg id method p.path input events).1
                   ++ [⟨id, .result (some .started) none⟩],
                 (streamSyncFrames cfg id method p.path input events).2)

/-- The `complete` callback of a registered subscription firing later
(asynchronously): `sendResponse({ result: { type: 'stopped' } })` and
nothing else — in particular no registry mutation. -/
def streamCompleteCb {V : Type} (id : RpcId) (st : HandlerState) :
    HandlerState × List (Resp V) :=
  (st, [⟨id, .result (some .stopped) none⟩])

/-- The `error` callback of a registered subscription firing later: the
cause is normalized, reported to `onError`, and sent shaped as an `error`
frame — no registry mutation. -/
def streamErrorCb {V : Type} (cfg : ServerCfg V) (id : RpcId) (method : Method)
    (path : String) (input : Option V) (cause : V) (st : HandlerState) :
    HandlerState × List (Resp V) × List (ErrReport V) :=
  (st, [⟨id, .error (cfg.shape (cfg.normalize cause))⟩],
   [⟨cfg.normalize cause, method, some path, input⟩])

/-- The channel's `onDisconnect` on the dispatcher side: runs every
accumulated cleanup callback, unsubscribing each registered subscription
token; the `subscriptions` map itself is not mutated. -/
def serverDisconnect (st : HandlerState) : HandlerState :=
  { st with unsubbed := st.cleanup ++ st.unsubbed }

/-! ## End-to-end round trip (client link → dispatcher → client link) -/

/-- Client-side input serialization: `transformer ? transformer.input.serialize(op.input) : op.input`. -/
def clientInputSer {V : Type} (tr : Option (CombinedDataTransformer V)) (v : V) : V :=
  match tr with
  | some t => t.inputSerialize v
  | none => v

/-- Client-side output deserialization on a bare value. -/
def clientOutputDeser {V : Type} (tr : Option (CombinedDataTransformer V)) (v : V) : V :=
  match tr with
  | some t => t.outputDeserialize v
  | none => v

/-- The request frame `chromeLink` posts for a call:
`{ trpc: { id, method: type, params: { path, input } } }` with the input
serialized (pass-through without a transformer). -/
def clientRequest {V : Type} (tr : Option (CombinedDataTransformer V))
    (op : OpDesc V) : ServerMsg V :=
  .req op.id op.type (some ⟨op.path, op.input.map (clientInputSer tr)⟩)

/-- A response frame the dispatcher posts, as the client listener receives
it. -/
def respToClientMsg {V : Type} (r : Resp V) : Message V :=
  .frame ⟨some (some r.id), r.body⟩

/-- A full call: the client serializes and posts the request, the dispatcher
processes it, and every response frame it sends back runs through the call's
client-side listener; the result is the event sequence the caller's observer
sees. -/
def roundTrip {V : Type} (tr : Option (CombinedDataTransformer V))
    (cfg : ServerCfg V) (st : HandlerState) (op : OpDesc V) :
    List (ObsEvent V) :=
  ((serverOnMessage cfg st (clientRequest tr op)).2.1).flatMap
    (fun f => linkOnMessage tr op.id op.type (respToClientMsg f))

/-! ## Port acceptance (spec-modelled) -/

/-- The channel metadata the acceptance predicate inspects (name and sender
identity). -/
structure PortMeta where
  name : String
  senderId : Option String
  deriving DecidableEq, Repr

/-- What the dispatcher's `onConnect` listener did with a new channel. -/
structure ConnectResult where
  disconnected : Bool
  messageListenerAttached : Bool
  disconnectListenerAttached : Bool
  deriving DecidableEq, Repr

/-- Modelled from the spec: the `acceptPort` channel-acceptance predicate of
`createChromeHandler` (the adapter variant with port filtering is not among
the sources; only `test/port-filtering.test.ts` exercises it).  Spec §4.2:
"On new channel: if `acceptChannel` is supplied and returns false, the
channel is torn down immediately and no listeners are attached.  Otherwise
registers a message listener and a close listener"; §6: the predicate
"inspects channel metadata (name, origin identity) and returns whether to
keep or immediately discard the connection". -/
def handleConnect (acceptPort : Option (PortMeta → Bool)) (p : PortMeta) :
    ConnectResult :=
  match acceptPort with
  | some f => if f p then ⟨false, true, true⟩ else ⟨true, false, false⟩
  | none => ⟨false, true, true⟩

/-! ## Concrete instances, for evaluating the model at explicit inputs -/

/-- A dispatcher configuration over `Nat` wire values with the identity
transformer and an echoing procedure. -/
def natCfg : ServerCfg Nat :=
  { inputDeserialize := fun v => .ok v
    outputSerialize := id
    createContext := .ok 0
    run := fun _ _ i => .ok (.value (i.getD 0))
    normalize := id
    shape := id
    missingParamsError := 99
    dupIdError := fun _ => 77 }

/-- `natCfg` with a procedure resolving to an (empty) observable stream. -/
def natSubCfg : ServerCfg Nat :=
  { natCfg with run := fun _ _ _ => .ok (.stream []) }

/-- A dispatcher state with one active subscription: id 1 held by
subscription token 0, token 0 in the cleanup list. -/
def oneSubState : HandlerState := ⟨[(.num 1, 0)], 1, [], [0]⟩

/-! ## Helper lemmas -/

theorem linkOnMessage_eq_nil_of_msgId_none {V : Type}
    (tr : Option (CombinedDataTransformer V)) (i : RpcId) (ty : Method)
    (msg : Message V) (h : msgId msg = none) :
    linkOnMessage tr i ty msg = [] := by
  cases msg with
  | noTrpc => rfl
  | nullTrpc => rfl
  | frame t =>
    obtain ⟨idf, body⟩ := t
    match idf with
    | none => rfl
    | some none => rfl
    | some (some m) => simp [msgId] at h

theorem linkOnMessage_eq_nil_of_ne {V : Type}
    (tr : Option (CombinedDataTransformer V)) (i : RpcId) (ty : Method)
    (msg : Message V) (m : RpcId) (hm : msgId msg = some m) (hne : i ≠ m) :
    linkOnMessage tr i ty msg = [] := by
  cases msg with
  | noTrpc => simp [msgId] at hm
  | nullTrpc => simp [msgId] at hm
  | frame t =>
    obtain ⟨idf, body⟩ := t
    match idf with
    | none => simp [msgId] at hm
    | some none => simp [msgId] at hm
    | some (some mid) =>
      simp only [msgId] at hm
      cases hm
      simp [linkOnMessage, hne]

/-! ## Claims about the caller-side multiplexer -/

/-- C1: Correlation isolation — a message that fails the shape checks (no
`trpc` key, null `trpc`, missing or null/undefined `trpc.id`) produces no
observer event for any pending call and leaves every call pending; and each
call's listener ignores (produces no event for) every frame whose id differs
from the call's own id. -/
theorem correlation_isolation {V : Type} (tr : Option (CombinedDataTransformer V))
    (s : LinkState V) (msg : Message V) :
    (msgId msg = none → deliverFrame tr s msg = (s, [])) ∧
    (∀ c, c ∈ s.pending → msgId msg ≠ some c.id →
      linkOnMessage tr c.id c.type msg = []) := by
  constructor
  · intro h
    have hnil : ∀ c : OpDesc V, linkOnMessage tr c.id c.type msg = [] :=
      fun c => linkOnMessage_eq_nil_of_msgId_none tr c.id c.type msg h
    simp [deliverFrame, hnil]
  · intro c _ hne
    cases hm : msgId msg with
    | none => exact linkOnMessage_eq_nil_of_msgId_none tr c.id c.type msg hm
    | some m =>
      refine linkOnMessage_eq_nil_of_ne tr c.id c.type msg m hm ?_
      intro he
      exact hne (by rw [hm, he])

/-- Witness for `correlation_isolation` at concrete inputs: a trpc-less
message leaves a one-call state untouched, and a frame carrying id 2 is
ignored by the listener of the call with id 1. -/
theorem correlation_isolation_witness :
    deliverFrame (V := Nat) none ⟨[⟨.num 1, .query, "a", none⟩]⟩ .noTrpc
      = (⟨[⟨.num 1, .query, "a", none⟩]⟩, []) ∧
    linkOnMessage (V := Nat) none (.num 1) .query
      (.frame ⟨some (some (.num 2)), .result none none⟩) = [] :=
  ⟨(correlation_isolation none ⟨[⟨.num 1, .query, "a", none⟩]⟩ .noTrpc).1 rfl,
   (correlation_isolation none ⟨[⟨.num 1, .query, "a", none⟩]⟩
      (.frame ⟨some (some (.num 2)), .result none none⟩)).2
      ⟨.num 1, .query, "a", none⟩ (by simp) (by decide)⟩

/-- C4: Premature close — firing the channel's disconnect event delivers the
"Port disconnected prematurely" error to each of the N pending observers
(one event per pending call, every event that error, every pending call
served), and afterwards no arriving message is delivered to any of those
callers. -/
theorem premature_close {V : Type} (tr : Option (CombinedDataTransformer V))
    (s : LinkState V) :
    (fireDisconnect s).2.length = s.pending.length ∧
    (∀ p, p ∈ (fireDisconnect s).2 → p.2 = ObsEvent.error .disconnected) ∧
    (∀ c, c ∈ s.pending →
      (c.id, ObsEvent.error (V := V) .disconnected) ∈ (fireDisconnect s).2) ∧
    (∀ msg, deliverFrame tr (fireDisconnect s).1 msg = (⟨[]⟩, [])) := by
  refine ⟨List.length_map _ _, ?_, ?_, fun msg => rfl⟩
  · intro p hp
    simp only [fireDisconnect, List.mem_map] at hp
    obtain ⟨c, _, rfl⟩ := hp
    rfl
  · intro c hc
    simp only [fireDisconnect, List.mem_map]
    exact ⟨c, hc, rfl⟩

/-- Witness for `premature_close` at a concrete two-call state. -/
theorem premature_close_witness :
    (fireDisconnect (V := Nat)
        ⟨[⟨.num 1, .query, "a", none⟩, ⟨.num 2, .subscription, "b", none⟩]⟩).2.length
      = 2 ∧
    ((.num 1, ObsEvent.error (V := Nat) .disconnected) ∈
      (fireDisconnect (V := Nat)
        ⟨[⟨.num 1, .query, "a", none⟩, ⟨.num 2, .subscription, "b", none⟩]⟩).2) ∧
    deliverFrame (V := Nat) none
      (fireDisconnect (V := Nat)
        ⟨[⟨.num 1, .query, "a", none⟩, ⟨.num 2, .subscription, "b", none⟩]⟩).1
      (.frame ⟨some (some (.num 1)), .result none none⟩) = (⟨[]⟩, []) :=
  ⟨(premature_close none
      ⟨[⟨.num 1, .query, "a", none⟩, ⟨.num 2, .subscription, "b", none⟩]⟩).1,
   (premature_close none
      ⟨[⟨.num 1, .query, "a", none⟩, ⟨.num 2, .subscription, "b", none⟩]⟩).2.2.1
      ⟨.num 1, .query, "a", none⟩ (by simp),
   (premature_close none
      ⟨[⟨.num 1, .query, "a", none⟩, ⟨.num 2, .subscription, "b", none⟩]⟩).2.2.2
      (.frame ⟨some (some (.num 1)), .result none none⟩)⟩

/-- C5: Query/mutation terminal semantics — on a matching result frame a
non-subscription call delivers one value and completes immediately, whatever
`result.type` is (including `started`, `stopped`, or absent); a subscription
delivers a value and stays open unless the frame's type is `stopped`, in
which case it completes; a matching error frame terminates any call with a
single error event. -/
theorem terminal_semantics {V : Type} (tr : Option (CombinedDataTransformer V))
    (i : RpcId) (ty : Method) (rty : Option ResultType) (rdata : Option V)
    (e : V) :
    (ty ≠ .subscription →
      ∃ d, linkOnMessage tr i ty (.frame ⟨some (some i), .result rty rdata⟩)
        = [.next d, .complete]) ∧
    (ty = .subscription → rty ≠ some .stopped →
      ∃ d, linkOnMessage tr i ty (.frame ⟨some (some i), .result rty rdata⟩)
        = [.next d]) ∧
    (ty = .subscription → rty = some .stopped →
      ∃ d, linkOnMessage tr i ty (.frame ⟨some (some i), .result rty rdata⟩)
        = [.next d, .complete]) ∧
    (∃ w, linkOnMessage tr i ty (.frame ⟨some (some i), .error e⟩)
        = [.error w]) := by
  refine ⟨?_, ?_, ?_, ?_⟩
  · intro hty
    refine ⟨if rty = none ∨ rty = some .data then ⟨some .data, linkDeser tr rdata⟩
      else ⟨rty, rdata⟩, ?_⟩
    simp [linkOnMessage, hty]
  · intro hty hrty
    subst hty
    refine ⟨if rty = none ∨ rty = some .data then ⟨some .data, linkDeser tr rdata⟩
      else ⟨rty, rdata⟩, ?_⟩
    simp [linkOnMessage, hrty]
  · intro hty hrty
    subst hty
    subst hrty
    refine ⟨⟨some .stopped, rdata⟩, ?_⟩
    simp [linkOnMessage]
  · refine ⟨.wire (match tr with
      | some tf => tf.outputDeserialize e
      | none => e), ?_⟩
    simp [linkOnMessage]

/-- Witness for `terminal_semantics`: a query completes after a `started`
frame; a subscription stays open after a `data` frame and completes after a
`stopped` frame; an error frame terminates. -/
theorem terminal_semantics_witness :
    (∃ d, linkOnMessage (V := Nat) none (.num 1) .query
        (.frame ⟨some (some (.num 1)), .result (some .started) none⟩)
      = [.next d, .complete]) ∧
    (∃ d, linkOnMessage (V := Nat) none (.num 1) .subscription
        (.frame ⟨some (some (.num 1)), .result (some .data) (some 5)⟩)
      = [.next d]) ∧
    (∃ d, linkOnMessage (V := Nat) none (.num 1) .subscription
        (.frame ⟨some (some (.num 1)), .result (some .stopped) none⟩)
      = [.next d, .complete]) ∧
    (∃ w, linkOnMessage (V := Nat) none (.num 1) .mutation
        (.frame ⟨some (some (.num 1)), .error 7⟩)
      = [.error w]) :=
  ⟨(terminal_semantics none (.num 1) .query (some .started) none 0).1
      (by decide),
   (terminal_semantics none (.num 1) .subscription (some .data) (some 5) 0).2.1
      rfl (by decide),
   (terminal_semantics none (.num 1) .subscription (some .stopped) none 0).2.2.1
      rfl rfl,
   (terminal_semantics none (.num 1) .mutation none none 7).2.2.2⟩

/-- C10: Deserialization gating — a matching frame whose `result.type` is
`started` or `stopped` is delivered to the observer with its result object
unchanged (no type rewrite, no data deserialization), and that delivery
precedes any completion decision (the remaining events are nothing or a
single complete). -/
theorem passthrough_started_stopped {V : Type}
    (tr : Option (CombinedDataTransformer V)) (i : RpcId) (ty : Method)
    (rty : Option ResultType) (rdata : Option V)
    (h : rty = some .started ∨ rty = some .stopped) :
    (linkOnMessage tr i ty (.frame ⟨some (some i), .result rty rdata⟩)).head?
      = some (.next ⟨rty, rdata⟩) ∧
    ((linkOnMessage tr i ty (.frame ⟨some (some i), .result rty rdata⟩)).tail
        = [] ∨
     (linkOnMessage tr i ty (.frame ⟨some (some i), .result rty rdata⟩)).tail
        = [ObsEvent.complete]) := by
  have hcond : ¬ (rty = none ∨ rty = some .data) := by
    rcases h with h | h <;> subst h <;> simp
  constructor
  · simp [linkOnMessage, hcond]
  · by_cases hterm : ty ≠ Method.subscription ∨ rty = some ResultType.stopped
    · right
      simp [linkOnMessage, hcond, hterm]
    · left
      simp [linkOnMessage, hcond, hterm]

/-- Witness for `passthrough_started_stopped`: a `started` frame with a
payload reaches a subscription observer unchanged even under a transformer
that rewrites every payload. -/
theorem passthrough_started_stopped_witness :
    (linkOnMessage (V := Nat) (some ⟨Nat.succ, Nat.succ, Nat.succ, Nat.succ⟩)
        (.num 1) .subscription
        (.frame ⟨some (some (.num 1)), .result (some .started) (some 9)⟩)).head?
      = some (.next ⟨some .started, some 9⟩) :=
  (passthrough_started_stopped (some ⟨Nat.succ, Nat.succ, Nat.succ, Nat.succ⟩)
    (.num 1) .subscription (some .started) (some 9) (Or.inl rfl)).1

/-! ## Claims about the callee-side dispatcher -/

theorem subsGet_eq_none_iff {l : List (RpcId × Nat)} {i : RpcId} :
    subsGet l i = none ↔ ∀ p ∈ l, p.1 ≠ i := by
  simp [subsGet, List.find?_eq_none]

theorem subsDelete_eq_self_of_none {l : List (RpcId × Nat)} {i : RpcId}
    (h : subsGet l i = none) : subsDelete l i = l := by
  rw [subsDelete, List.filter_eq_self]
  intro a ha
  simpa using subsGet_eq_none_iff.mp h a ha

theorem subsGet_subsDelete_self (l : List (RpcId × Nat)) (i : RpcId) :
    subsGet (subsDelete l i) i = none := by
  rw [subsGet_eq_none_iff]
  intro p hp
  rw [subsDelete, List.mem_filter] at hp
  simpa using hp.2

/-- C7: Idempotent stop — a `subscription.stop` request for an id with no
active registry entry sends no response frame, makes no error report, and
leaves the whole dispatcher state (registry included) unchanged, and the
same holds for an immediately repeated stop. -/
theorem idempotent_stop {V : Type} (cfg : ServerCfg V) (st : HandlerState)
    (i : RpcId) (params : Option (ReqParams V))
    (h : subsGet st.subs i = none) :
    serverOnMessage cfg st (.req i .subscriptionStop params) = (st, [], []) ∧
    serverOnMessage cfg
        (serverOnMessage cfg st (.req i .subscriptionStop params)).1
        (.req i .subscriptionStop params) = (st, [], []) := by
  have h1 : serverOnMessage cfg st (.req i .subscriptionStop params)
      = (st, [], []) := by
    simp [serverOnMessage, h, subsDelete_eq_self_of_none h]
  refine ⟨h1, ?_⟩
  rw [h1]
  exact h1

/-- Witness for `idempotent_stop`: stopping id 2 while only id 1 is active
leaves the state untouched, twice. -/
theorem idempotent_stop_witness :
    subsGet oneSubState.subs (.num 2) = none ∧
    serverOnMessage natCfg oneSubState (.req (.num 2) .subscriptionStop none)
      = (oneSubState, [], []) :=
  ⟨by decide,
   (idempotent_stop natCfg oneSubState (.num 2) none (by decide)).1⟩

/-- C6: Dispatcher exception containment — whenever any stage of a call
(missing `params`, input deserialization, context creation, path resolution
or procedure execution) throws, the handler returns normally with the
per-channel state unchanged, exactly one `error` response frame for the
call's id carrying the normalized-and-shaped cause, and exactly one
`onError` report carrying the normalized cause and the request's method. -/
theorem exception_containment {V : Type} (cfg : ServerCfg V) (st : HandlerState)
    (i : RpcId) (method : Method) (params : Option (ReqParams V)) (c : V)
    (hm : method ≠ .subscriptionStop)
    (hfail : callFailure cfg params = some c) :
    ∃ rp : ErrReport V,
      serverOnMessage cfg st (.req i method params)
        = (st, [⟨i, .error (cfg.shape (cfg.normalize c))⟩], [rp]) ∧
      rp.error = cfg.normalize c ∧ rp.method = method := by
  cases params with
  | none =>
    simp only [callFailure, Option.some.injEq] at hfail
    subst hfail
    simp only [serverOnMessage, if_neg hm]
    exact ⟨_, rfl, rfl, rfl⟩
  | some p =>
    simp only [callFailure] at hfail
    simp only [serverOnMessage, if_neg hm]
    cases hd : deserInput cfg p.input with
    | error c2 =>
      rw [hd] at hfail
      simp only [Option.some.injEq] at hfail
      subst hfail
      exact ⟨_, rfl, rfl, rfl⟩
    | ok input =>
      rw [hd] at hfail
      simp only [] at hfail ⊢
      cases hc : cfg.createContext with
      | error c2 =>
        rw [hc] at hfail
        simp only [Option.some.injEq] at hfail
        subst hfail
        exact ⟨_, rfl, rfl, rfl⟩
      | ok ctx =>
        rw [hc] at hfail
        simp only [] at hfail ⊢
        cases hr : cfg.run ctx p.path input with
        | error c2 =>
          rw [hr] at hfail
          simp only [Option.some.injEq] at hfail
          subst hfail
          exact ⟨_, rfl, rfl, rfl⟩
        | ok res =>
          rw [hr] at hfail
          simp at hfail

/-- Witness for `exception_containment`: a request with no `params` is
answered by a single error frame and a single report. -/
theorem exception_containment_witness :
    ∃ rp : ErrReport Nat,
      serverOnMessage natCfg oneSubState (.req (.num 3) .query none)
        = (oneSubState, [⟨.num 3, .error 99⟩], [rp]) ∧
      rp.error = 99 ∧ rp.method = .query :=
  exception_containment natCfg oneSubState (.num 3) .query none 99
    (by decide) (by decide)

/-- C2 counterexample: with subscription token 0 active for id 1, a second
subscription request for id 1 unsubscribes the NEW handle (token 1), not the
existing one: token 0 is not unsubscribed and the registry still maps id 1
to token 0.  The claim that "the existing (first) subscription is torn down"
is false at this input. -/
theorem duplicate_subscription_counterexample :
    (serverOnMessage natSubCfg oneSubState
        (.req (.num 1) .subscription (some ⟨"p", none⟩))).1.unsubbed = [1] ∧
    (0 : Nat) ∉ (serverOnMessage natSubCfg oneSubState
        (.req (.num 1) .subscription (some ⟨"p", none⟩))).1.unsubbed ∧
    subsGet (serverOnMessage natSubCfg oneSubState
        (.req (.num 1) .subscription (some ⟨"p", none⟩))).1.subs (.num 1)
      = some 0 := by
  decide

/-- C2 amended: when a request produces a streaming result for an id already
active in the registry, the dispatcher unsubscribes the NEWLY created
(second) subscription handle, sends a `stopped` frame followed by a
duplicate-id protocol `error` frame, and leaves the registry and cleanup
list unchanged — the existing entry is never overwritten and the first
subscription is not unsubscribed by this path. -/
theorem duplicate_subscription_amended {V : Type} (cfg : ServerCfg V)
    (st : HandlerState) (i : RpcId) (method : Method) (p : ReqParams V)
    (input : Option V) (ctx : V) (events : List (StreamEvent V)) (tok : Nat)
    (hm : method ≠ .subscriptionStop)
    (hsub : subsGet st.subs i = some tok)
    (hdeser : deserInput cfg p.input = .ok input)
    (hctx : cfg.createContext = .ok ctx)
    (hrun : cfg.run ctx p.path input = .ok (.stream events)) :
    (serverOnMessage cfg st (.req i method (some p))).1
      = { st with
            nextToken := st.nextToken + 1
            unsubbed := st.nextToken :: st.unsubbed } ∧
    (serverOnMessage cfg st (.req i method (some p))).2.1
      = (streamSyncFrames cfg i method p.path input events).1
        ++ [⟨i, .result (some .stopped) none⟩,
            ⟨i, .error (cfg.shape (cfg.normalize (cfg.dupIdError i)))⟩] := by
  have hsome : (subsGet st.subs i).isSome = true := by rw [hsub]; rfl
  simp only [serverOnMessage, if_neg hm]
  rw [hdeser]
  simp only []
  rw [hctx]
  simp only []
  rw [hrun]
  simp only [if_pos hsome]
  exact ⟨by trivial, by trivial⟩

/-- Witness for `duplicate_subscription_amended` at the concrete
one-subscription state. -/
theorem duplicate_subscription_amended_witness :
    (serverOnMessage natSubCfg oneSubState
        (.req (.num 1) .subscription (some ⟨"p", none⟩))).1
      = { oneSubState with nextToken := 2, unsubbed := [1] } ∧
    (serverOnMessage natSubCfg oneSubState
        (.req (.num 1) .subscription (some ⟨"p", none⟩))).2.1
      = (streamSyncFrames natSubCfg (.num 1) .subscription "p" none []).1
        ++ [⟨.num 1, .result (some .stopped) none⟩, ⟨.num 1, .error 77⟩] :=
  duplicate_subscription_amended natSubCfg oneSubState (.num 1) .subscription
    ⟨"p", none⟩ none 0 [] 0 (by decide) (by decide) rfl rfl rfl

/-- C3 counterexample: with subscription token 0 active for id 1, the
stream's `complete` callback, the stream's `error` callback, and the channel
disconnect all leave the registry entry for id 1 present, contradicting the
claim that each of the four terminating causes removes it (only
`subscription.stop` does). -/
theorem registry_lifecycle_counterexample :
    subsGet ((streamCompleteCb (V := Nat) (.num 1) oneSubState).1).subs (.num 1)
      = some 0 ∧
    subsGet ((streamErrorCb natCfg (.num 1) .subscription "p" none 5
        oneSubState).1).subs (.num 1) = some 0 ∧
    subsGet (serverDisconnect oneSubState).subs (.num 1) = some 0 := by
  decide

/-- C3 amended: of the four terminating causes, only a `subscription.stop`
request removes the registry entry (and unsubscribes the handle); the
stream's `complete` and `error` callbacks send their terminal frame but
leave the registry unchanged, and channel disconnect unsubscribes every
handle on the cleanup list while also leaving the registry map unchanged. -/
theorem registry_lifecycle_amended {V : Type} (cfg : ServerCfg V)
    (st : HandlerState) (i : RpcId) (tok : Nat) (method : Method)
    (path : String) (input : Option V) (cause : V)
    (h : subsGet st.subs i = some tok) :
    (subsGet (serverOnMessage (V := V) cfg st
        (.req i .subscriptionStop none)).1.subs i = none ∧
     (serverOnMessage (V := V) cfg st
        (.req i .subscriptionStop none)).1.unsubbed = tok :: st.unsubbed) ∧
    (streamCompleteCb (V := V) i st).1.subs = st.subs ∧
    (streamErrorCb cfg i method path input cause st).1.subs = st.subs ∧
    ((serverDisconnect st).subs = st.subs ∧
     ∀ t, t ∈ st.cleanup → t ∈ (serverDisconnect st).unsubbed) := by
  refine ⟨?_, rfl, rfl, rfl, ?_⟩
  · have hstop : serverOnMessage (V := V) cfg st (.req i .subscriptionStop none)
        = ({ st with
              subs := subsDelete st.subs i
              unsubbed := tok :: st.unsubbed },
           [⟨i, .result (some .stopped) none⟩], []) := by
      simp [serverOnMessage, h]
    rw [hstop]
    exact ⟨subsGet_subsDelete_self st.subs i, rfl⟩
  · intro t ht
    simp only [serverDisconnect, List.mem_append]
    exact Or.inl ht

/-- Witness for `registry_lifecycle_amended` at the concrete
one-subscription state. -/
theorem registry_lifecycle_amended_witness :
    subsGet (serverOnMessage natCfg oneSubState
        (.req (.num 1) .subscriptionStop none)).1.subs (.num 1) = none ∧
    (serverOnMessage natCfg oneSubState
        (.req (.num 1) .subscriptionStop none)).1.unsubbed = [0] ∧
    (serverDisconnect oneSubState).subs = oneSubState.subs :=
  ⟨(registry_lifecycle_amended natCfg oneSubState (.num 1) 0 .subscription
      "p" none 5 (by decide)).1.1,
   (registry_lifecycle_amended natCfg oneSubState (.num 1) 0 .subscription
      "p" none 5 (by decide)).1.2,
   (registry_lifecycle_amended natCfg oneSubState (.num 1) 0 .subscription
      "p" none 5 (by decide)).2.2.2.1⟩

/-! ## End-to-end and connection-acceptance claims -/

theorem linkDeser_some {V : Type} (tr : Option (CombinedDataTransformer V))
    (x : V) : linkDeser tr (some x) = some (clientOutputDeser tr x) := by
  cases tr <;> rfl

/-- C9: Transformer round-trip — when the transformer round-trips on `v`
(server-side input deserialization inverts client-side input serialization,
client-side output deserialization inverts server-side output serialization)
and the procedure echoes its input, a full call delivers exactly the value
`v` to the caller; with no transformer configured the same holds by
pass-through.  For a non-subscription call the observer moreover completes
right after the delivery. -/
theorem transformer_round_trip {V : Type}
    (tr : Option (CombinedDataTransformer V)) (cfg : ServerCfg V)
    (st : HandlerState) (op : OpDesc V) (v ctx : V)
    (hm : op.type ≠ .subscriptionStop)
    (hin : op.input = some v)
    (hdeser : cfg.inputDeserialize (clientInputSer tr v) = .ok v)
    (hctx : cfg.createContext = .ok ctx)
    (hecho : cfg.run ctx op.path (some v) = .ok (.value v))
    (hout : clientOutputDeser tr (cfg.outputSerialize v) = v) :
    (roundTrip tr cfg st op).head? = some (.next ⟨some .data, some v⟩) ∧
    (op.type ≠ .subscription →
      roundTrip tr cfg st op = [.next ⟨some .data, some v⟩, .complete]) := by
  have hframes : (serverOnMessage cfg st (clientRequest tr op)).2.1
      = [⟨op.id, .result (some .data) (some (cfg.outputSerialize v))⟩] := by
    unfold clientRequest
    rw [hin]
    simp only [Option.map_some']
    simp only [serverOnMessage, if_neg hm]
    simp only [deserInput]
    rw [hdeser]
    simp only [Except.map]
    rw [hctx]
    simp only []
    rw [hecho]
  have hlink : ∀ extra : List (ObsEvent V),
      linkOnMessage tr op.id op.type
        (respToClientMsg ⟨op.id, .result (some .data) (some (cfg.outputSerialize v))⟩)
      = .next ⟨some .data, some v⟩ ::
          (if op.type ≠ .subscription ∨ (some ResultType.data) = some ResultType.stopped
            then [ObsEvent.complete] else []) := by
    intro _
    simp only [respToClientMsg, linkOnMessage]
    rw [if_neg (by simp)]
    rw [linkDeser_some, hout]
    simp
  constructor
  · unfold roundTrip
    rw [hframes]
    simp only [List.flatMap_cons, List.flatMap_nil, List.append_nil]
    rw [hlink []]
    rfl
  · intro hty
    unfold roundTrip
    rw [hframes]
    simp only [List.flatMap_cons, List.flatMap_nil, List.append_nil]
    rw [hlink []]
    simp [hty]

/-- Witness for `transformer_round_trip`: once with a non-identity
transformer whose deserializers invert the serializers, once with no
transformer against the identity dispatcher. -/
theorem transformer_round_trip_witness :
    roundTrip (V := Nat) (some ⟨Nat.succ, Nat.pred, Nat.succ, Nat.pred⟩)
        { natCfg with
            inputDeserialize := fun w => .ok w.pred
            outputSerialize := Nat.succ }
        oneSubState ⟨.num 4, .query, "echo", some 42⟩
      = [.next ⟨some .data, some 42⟩, .complete] ∧
    roundTrip (V := Nat) none natCfg oneSubState ⟨.num 4, .query, "echo", some 42⟩
      = [.next ⟨some .data, some 42⟩, .complete] :=
  ⟨(transformer_round_trip (some ⟨Nat.succ, Nat.pred, Nat.succ, Nat.pred⟩)
      { natCfg with
          inputDeserialize := fun w => .ok w.pred
          outputSerialize := Nat.succ }
      oneSubState ⟨.num 4, .query, "echo", some 42⟩ 42 0
      (by decide) rfl rfl rfl rfl rfl).2 (by decide),
   (transformer_round_trip none natCfg oneSubState
      ⟨.num 4, .query, "echo", some 42⟩ 42 0
      (by decide) rfl rfl rfl rfl rfl).2 (by decide)⟩

/-- C8 (spec-modelled): channel acceptance — with an `acceptPort` predicate
returning `false` the new channel is disconnected immediately and no message
or disconnect listener is attached; with the predicate returning `true`, or
with no predicate supplied, the channel is kept and both listeners are
attached. -/
theorem accept_port (f : PortMeta → Bool) (p : PortMeta) :
    (f p = false → handleConnect (some f) p = ⟨true, false, false⟩) ∧
    (f p = true → handleConnect (some f) p = ⟨false, true, true⟩) ∧
    handleConnect none p = ⟨false, true, true⟩ := by
  refine ⟨?_, ?_, rfl⟩
  · intro h
    simp [handleConnect, h]
  · intro h
    simp [handleConnect, h]

/-- Witness for `accept_port` with a name-filtering predicate: a channel
named differently is rejected, the matching one accepted. -/
theorem accept_port_witness :
    handleConnect (some (fun q => q.name == "allowed")) ⟨"other", none⟩
      = ⟨true, false, false⟩ ∧
    handleConnect (some (fun q => q.name == "allowed")) ⟨"allowed", none⟩
      = ⟨false, true, true⟩ ∧
    handleConnect none ⟨"anything", some "ext"⟩ = ⟨false, true, true⟩ :=
  ⟨(accept_port (fun q => q.name == "allowed") ⟨"other", none⟩).1 (by decide),
   (accept_port (fun q => q.name == "allowed") ⟨"allowed", none⟩).2.1 (by decide),
   (accept_port (fun q => q.name == "allowed") ⟨"anything", some "ext"⟩).2.2⟩

end TrpcChrome
